import Mathlib

/-!
Verification development for a serverless URL-shortening service (`app.py`).

The source is a single Python module with three functions behind a Lambda
dispatcher:
  * `url_valida`          — URL-validity predicate built on `urllib.parse.urlparse`;
  * `criar_encurtamento`  — POST /encurtar: validate a URL, generate a 6-char
                            code, conditionally insert into DynamoDB; the
                            retry loop is textually bounded by 5 attempts but
                            its except clause names the nonexistent
                            `boto3.exceptions.ClientError`, so a collision in
                            fact aborts the request (see `createLoop`);
  * `redirecionar`        — GET /{codigo}: look the code up and answer a 301
                            permanent redirect;
  * `handler`             — routing on httpMethod and path.

The DynamoDB table is modelled as an association list of items keyed by
`codigo`; `put_item` with `ConditionExpression="attribute_not_exists(codigo)"`
becomes a conditional insert that fails exactly when the key is present.
Randomness (`random.choices`) is an oracle `rand : Nat → Nat → Nat` giving, for
each attempt, the index choices for the 6 positions of the code.  `json.loads`
of the request body is modelled by its outcome (`BodyParse`): absent/falsy body
(Python's `body or "{}"`), a successfully parsed JSON object, a parsed non-dict
value, or a parse error carrying the exception text `str(e)`.
-/

set_option autoImplicit false

namespace UrlShortener

/-! ### Model of `urllib.parse.urlparse` (scheme and netloc components)

Mirrors CPython's `urlsplit`: strip leading C0-control/space characters,
remove tab/CR/LF anywhere, split off a scheme `<alpha><alnum|+|-|.>*:`
(lower-cased), and when the remainder starts with `//` take the netloc up to
the next `/`, `?` or `#`.  A netloc with unbalanced square brackets raises
`ValueError` ("Invalid IPv6 URL"), modelled as `none`. -/

def isC0OrSpace (c : Char) : Bool := c.toNat ≤ 32

def isTabOrNewline (c : Char) : Bool := c == '\t' || c == '\n' || c == '\r'

def isSchemeChar (c : Char) : Bool :=
  c.isAlpha || c.isDigit || c == '+' || c == '-' || c == '.'

/-- Split a character list at the first `':'`: `some (before, after)`, or
`none` when there is no colon. -/
def splitOnColon : List Char → Option (List Char × List Char)
  | [] => none
  | c :: cs =>
    if c = ':' then some ([], cs)
    else
      match splitOnColon cs with
      | some (pre, post) => some (c :: pre, post)
      | none => none

/-- `url.find(':') > 0`, `url[0].isalpha()` (ASCII) and every character before
the colon a scheme character ⇒ `(scheme.lower(), rest)`; otherwise no scheme. -/
def splitScheme (l : List Char) : List Char × List Char :=
  match splitOnColon l with
  | some (pre, post) =>
    if pre.length > 0 && (pre.headD ' ').isAlpha && pre.all isSchemeChar then
      (pre.map Char.toLower, post)
    else
      ([], l)
  | none => ([], l)

/-- `_splitnetloc`: the netloc runs until the next `/`, `?` or `#`. -/
def splitNetloc (l : List Char) : List Char × List Char :=
  (l.takeWhile (fun c => c ≠ '/' && c ≠ '?' && c ≠ '#'),
   l.dropWhile (fun c => c ≠ '/' && c ≠ '?' && c ≠ '#'))

structure UrlParts where
  scheme : String
  netloc : String
deriving DecidableEq, Repr

def urlparse (s : String) : Option UrlParts :=
  let l := (s.toList.dropWhile isC0OrSpace).filter (fun c => !isTabOrNewline c)
  let sch := splitScheme l
  let netloc : List Char :=
    if sch.2.take 2 = ['/', '/'] then (splitNetloc (sch.2.drop 2)).1 else []
  if (netloc.contains '[' && !netloc.contains ']')
      || (netloc.contains ']' && !netloc.contains '[') then
    none
  else
    some ⟨String.mk sch.1, String.mk netloc⟩

/-- `url_valida`: scheme is http(s) and netloc non-empty; any parse error
(the bare `except:` in the source) yields `False`. -/
def url_valida (url : String) : Bool :=
  match urlparse url with
  | none => false
  | some p => (p.scheme == "http" || p.scheme == "https") && p.netloc != ""

/-! ### Code generation -/

def TAMANHO_CODIGO : Nat := 6

/-- `string.ascii_letters + string.digits`. -/
def CARACTERES : String :=
  "abcdefghijklmnopqrstuvwxyzABCDEFGHIJKLMNOPQRSTUVWXYZ0123456789"

/-- `random.choices(CARACTERES, k=6)` with the random draws supplied by the
oracle `escolhas` (position ↦ chosen index, reduced mod 62). -/
def gerar_codigo (escolhas : Nat → Nat) : String :=
  String.mk ((List.range TAMANHO_CODIGO).map
    (fun i => CARACTERES.toList.getD (escolhas i % 62) 'a'))

/-! ### Store model (the DynamoDB table) -/

/-- A stored item.  `url_original` is `Option`al because nothing prevents
out-of-band writes from omitting the attribute; items written by this code
always carry it. -/
structure Item where
  codigo : String
  url_original : Option String
deriving DecidableEq, Repr

/-- `tabela.get_item(Key={"codigo": codigo})`, first match by key. -/
def tabela_get_item (store : List Item) (codigo : String) : Option Item :=
  store.find? (fun it => it.codigo == codigo)

/-- `tabela.put_item(Item=…, ConditionExpression="attribute_not_exists(codigo)")`:
`none` models `ConditionalCheckFailedException`. -/
def tabela_put_item (store : List Item) (it : Item) : Option (List Item) :=
  match tabela_get_item store it.codigo with
  | some _ => none
  | none => some (store ++ [it])

/-! ### Responses -/

/-- The three body shapes produced by the source: the redirect's empty string,
`json.dumps({"erro": …})`, and the 201 creation payload. -/
inductive Body where
  | vazio : Body
  | erroMsg : String → Body
  | criado : String → String → String → Body
deriving DecidableEq, Repr

structure Response where
  statusCode : Nat
  headers : List (String × String)
  body : Body
deriving DecidableEq, Repr

/-- Result of running one operation: the response, the store afterwards, and
how many `get_item` / `put_item` calls were issued. -/
structure ExecResult where
  resp : Response
  store : List Item
  gets : Nat
  puts : Nat
deriving DecidableEq, Repr

/-- The code the 201 body carries, if any. -/
def respCodigo : Response → Option String
  | ⟨_, _, Body.criado _ c _⟩ => some c
  | _ => none

/-! ### Create -/

/-- Outcome of `json.loads(evento.get("body") or "{}")` followed by
`corpo.get("url")`:
  * `absent`     — body missing or falsy, parsed as `{}` (no `url` key);
  * `parsed u?`  — a JSON object, with `u?` the value of its `url` key;
  * `nonDict m`  — valid JSON that is not an object: `corpo.get` raises
                   `AttributeError` with text `m`;
  * `malformed m` — `json.loads` raises `JSONDecodeError` with text `m`. -/
inductive BodyParse where
  | absent : BodyParse
  | parsed : Option String → BodyParse
  | nonDict : String → BodyParse
  | malformed : String → BodyParse
deriving DecidableEq, Repr

/-- How the `for _ in range(5)` loop terminates: `ok` is a `break` after a
successful insert, `excecao` is an exception propagating out of the loop to
the operation's outer `except Exception`, `esgotado` is the `for … else` arm
(loop finished without `break`). -/
inductive LoopOutcome where
  | ok : String → LoopOutcome
  | excecao : String → LoopOutcome
  | esgotado : LoopOutcome
deriving DecidableEq, Repr

/-- The `str(e)` of the `AttributeError` raised when the except clause at
app.py:58 evaluates `boto3.exceptions.ClientError`: that attribute does not
exist (`ClientError` is defined in `botocore.exceptions`; `boto3/exceptions.py`
merely imports `botocore.exceptions` without re-exporting it).  The real text
wraps the module and attribute names in single quotes. -/
def msgClientErrorInexistente : String :=
  "module boto3.exceptions has no attribute ClientError"

structure LoopResult where
  attempts : Nat
  outcome : LoopOutcome
  store : List Item
deriving DecidableEq, Repr

/-- The `for _ in range(5)` loop, given the list of codes the successive
`gerar_codigo()` calls would produce.  Each iteration issues exactly one
`put_item`; on success it `break`s.  When the insert raises
`ConditionalCheckFailedException`, evaluating the except clause expression
`boto3.exceptions.ClientError` raises `AttributeError` (the attribute does not
exist), which cancels handling of the original exception and propagates out of
the loop — so the `continue` at app.py:61 never runs, at most one insert
attempt is ever made, and the `for … else` arm is reachable only from an empty
iteration list (never the case for `range(5)`). -/
def createLoop (url : String) : List String → List Item → LoopResult
  | [], store => ⟨0, LoopOutcome.esgotado, store⟩
  | c :: _, store =>
    match tabela_put_item store ⟨c, some url⟩ with
    | some store' => ⟨1, LoopOutcome.ok c, store'⟩
    | none => ⟨1, LoopOutcome.excecao msgClientErrorInexistente, store⟩

def resp400UrlInvalida : Response :=
  ⟨400, [], Body.erroMsg "URL inválida. Envie no formato: \x7b\"url\": \"https://site.com\"\x7d"⟩

/-- After the loop: 201 with the code when the insert succeeded; a propagated
exception is caught by the operation's outer `except Exception` and returned
as 500 with `str(e)`; the `for … else` arm would return the 500 exhaustion
message (unreachable in the source, see `createLoop`). -/
def criarDoLoop (r : LoopResult) : ExecResult :=
  match r.outcome with
  | LoopOutcome.ok codigo =>
    ⟨⟨201, [], Body.criado "URL encurtada com sucesso!" codigo ("/" ++ codigo)⟩,
      r.store, 0, r.attempts⟩
  | LoopOutcome.excecao msg =>
    ⟨⟨500, [], Body.erroMsg msg⟩, r.store, 0, r.attempts⟩
  | LoopOutcome.esgotado =>
    ⟨⟨500, [], Body.erroMsg "Falha ao gerar código único."⟩, r.store, 0, r.attempts⟩

/-- `criar_encurtamento`, after the body has been parsed into `url?`. -/
def criarComUrl (rand : Nat → Nat → Nat) (url? : Option String)
    (store : List Item) : ExecResult :=
  match url? with
  | none => ⟨resp400UrlInvalida, store, 0, 0⟩
  | some url =>
    if url == "" || !url_valida url then
      ⟨resp400UrlInvalida, store, 0, 0⟩
    else
      criarDoLoop (createLoop url ((List.range 5).map (fun n => gerar_codigo (rand n))) store)

/-- `criar_encurtamento(evento)`.  A body whose JSON parse raises, or parses to
a non-dict, lands in the outer `except Exception` and yields a 500 carrying
`str(e)` — before any store call. -/
def criar_encurtamento (rand : Nat → Nat → Nat) (body : BodyParse)
    (store : List Item) : ExecResult :=
  match body with
  | BodyParse.malformed msg => ⟨⟨500, [], Body.erroMsg msg⟩, store, 0, 0⟩
  | BodyParse.nonDict msg => ⟨⟨500, [], Body.erroMsg msg⟩, store, 0, 0⟩
  | BodyParse.absent => criarComUrl rand none store
  | BodyParse.parsed url? => criarComUrl rand url? store

/-! ### Resolve -/

def resp400CodigoNaoInformado : Response :=
  ⟨400, [], Body.erroMsg "Código não informado."⟩

def resp404 : Response := ⟨404, [], Body.erroMsg "Código não encontrado."⟩

def resp500UrlInvalidaDB : Response :=
  ⟨500, [], Body.erroMsg "URL original inválida no DB."⟩

/-- `redirecionar(evento)`, with `codigo?` the value of
`evento["pathParameters"].get("codigo")`. -/
def redirecionar (store : List Item) (codigo? : Option String) : ExecResult :=
  match codigo? with
  | none => ⟨resp400CodigoNaoInformado, store, 0, 0⟩
  | some codigo =>
    if codigo == "" then
      ⟨resp400CodigoNaoInformado, store, 0, 0⟩
    else
      match (tabela_get_item store codigo).bind Item.url_original with
      | none => ⟨resp404, store, 1, 0⟩
      | some url_original =>
        if url_original == "" then
          ⟨resp404, store, 1, 0⟩
        else if !url_valida url_original then
          ⟨resp500UrlInvalidaDB, store, 1, 0⟩
        else
          ⟨⟨301, [("Location", url_original)], Body.vazio⟩, store, 1, 0⟩

/-! ### Router -/

/-- The inbound Lambda event: `evento.get("httpMethod")`,
`evento.get("path", "")`, `evento.get("pathParameters")` (outer `none` when the
key is absent, `None`, or a falsy empty dict; the inner option is the dict's
`codigo` value) and the request body. -/
structure Evento where
  httpMethod : Option String
  path : String
  pathParameters : Option (Option String)
  body : BodyParse
deriving DecidableEq, Repr

/-- `caminho.endswith(suf)`. -/
def strEndsWith (s suf : String) : Bool :=
  suf.toList.isSuffixOf s.toList

/-- Truthiness of `evento.get("pathParameters") and
evento.get("pathParameters").get("codigo")`. -/
def paramTruthy : Option (Option String) → Bool
  | some (some c) => c != ""
  | _ => false

def resp400Rota : Response :=
  ⟨400, [], Body.erroMsg "Requisição inválida ou rota não encontrada."⟩

/-- `handler(evento, contexto)`. -/
def handler (rand : Nat → Nat → Nat) (evento : Evento) (store : List Item) :
    ExecResult :=
  if evento.httpMethod == some "POST" && strEndsWith evento.path "/encurtar" then
    criar_encurtamento rand evento.body store
  else if evento.httpMethod == some "GET" && paramTruthy evento.pathParameters then
    redirecionar store evento.pathParameters.join
  else
    ⟨resp400Rota, store, 0, 0⟩

example : url_valida "https://example.com" = true := by decide
example : url_valida "not-a-url" = false := by decide
example : url_valida "ftp://host/x" = false := by decide
example : url_valida "https://" = false := by decide
example : url_valida "" = false := by decide
example : gerar_codigo (fun _ => 0) = "aaaaaa" := by decide
example :
    (criar_encurtamento (fun _ _ => 0) (BodyParse.parsed (some "https://example.com")) []).resp.statusCode
      = 201 := by decide

/-! ### Helper lemmas -/

theorem url_valida_ne_empty {u : String} (h : url_valida u = true) : u ≠ "" := by
  intro he
  subst he
  exact absurd h (by decide)

theorem gerar_codigo_ne_empty (escolhas : Nat → Nat) : gerar_codigo escolhas ≠ "" := by
  intro h
  have hd := String.ext_iff.mp h
  simp [gerar_codigo, TAMANHO_CODIGO] at hd

theorem tabela_get_item_append {store : List Item} {c : String} {it : Item}
    (l : List Item) (h : tabela_get_item store c = some it) :
    tabela_get_item (store ++ l) c = some it := by
  unfold tabela_get_item at *
  rw [List.find?_append, h]
  rfl

theorem tabela_get_item_append_self {store : List Item} {c : String}
    (u : Option String) (h : tabela_get_item store c = none) :
    tabela_get_item (store ++ [⟨c, u⟩]) c = some ⟨c, u⟩ := by
  unfold tabela_get_item at *
  rw [List.find?_append, h]
  simp

theorem tabela_put_item_some {store : List Item} {it : Item} {s' : List Item}
    (h : tabela_put_item store it = some s') :
    tabela_get_item store it.codigo = none ∧ s' = store ++ [it] := by
  unfold tabela_put_item at h
  cases hg : tabela_get_item store it.codigo with
  | some x => rw [hg] at h; exact absurd h (by simp)
  | none =>
    rw [hg] at h
    refine ⟨rfl, ?_⟩
    injection h with h'
    exact h'.symm

theorem tabela_put_item_none {store : List Item} {it : Item}
    (h : tabela_get_item store it.codigo ≠ none) :
    tabela_put_item store it = none := by
  obtain ⟨x, hx⟩ := Option.ne_none_iff_exists'.mp h
  unfold tabela_put_item
  rw [hx]

theorem createLoop_head_fresh (url c : String) (cs : List String) (store : List Item)
    (hc : tabela_get_item store c = none) :
    createLoop url (c :: cs) store = ⟨1, LoopOutcome.ok c, store ++ [⟨c, some url⟩]⟩ := by
  have hput : tabela_put_item store ⟨c, some url⟩ = some (store ++ [⟨c, some url⟩]) := by
    unfold tabela_put_item
    rw [hc]
  simp [createLoop, hput]

theorem createLoop_head_collision (url c : String) (cs : List String) (store : List Item)
    (hc : tabela_get_item store c ≠ none) :
    createLoop url (c :: cs) store =
      ⟨1, LoopOutcome.excecao msgClientErrorInexistente, store⟩ := by
  have hput : tabela_put_item store ⟨c, some url⟩ = none :=
    @tabela_put_item_none store ⟨c, some url⟩ hc
  simp [createLoop, hput]

theorem createLoop_ok (url : String) (cs : List String) (store : List Item)
    {a : Nat} {c : String} {s' : List Item}
    (h : createLoop url cs store = ⟨a, LoopOutcome.ok c, s'⟩) :
    c ∈ cs ∧ tabela_get_item store c = none ∧ s' = store ++ [⟨c, some url⟩] := by
  cases cs with
  | nil => exact absurd h (by simp [createLoop])
  | cons x xs =>
    simp only [createLoop] at h
    cases hput : tabela_put_item store ⟨x, some url⟩ with
    | some s'' =>
      rw [hput] at h
      obtain ⟨hg, hs⟩ := tabela_put_item_some hput
      simp only [LoopResult.mk.injEq, LoopOutcome.ok.injEq] at h
      obtain ⟨-, h2, h3⟩ := h
      subst h2
      rw [← h3]
      exact ⟨List.mem_cons_self x xs, hg, hs⟩
    | none =>
      rw [hput] at h
      simp at h

theorem createLoop_store_cases (url : String) (cs : List String) (store : List Item) :
    (createLoop url cs store).store = store ∨
      ∃ c, tabela_get_item store c = none ∧
        (createLoop url cs store).store = store ++ [⟨c, some url⟩] := by
  cases cs with
  | nil => left; rfl
  | cons x xs =>
    cases hput : tabela_put_item store ⟨x, some url⟩ with
    | some s'' =>
      right
      obtain ⟨hg, hs⟩ := tabela_put_item_some hput
      refine ⟨x, hg, ?_⟩
      simp [createLoop, hput, hs]
    | none =>
      left
      simp [createLoop, hput]

theorem criarDoLoop_store (r : LoopResult) : (criarDoLoop r).store = r.store := by
  unfold criarDoLoop
  cases r.outcome <;> rfl

theorem criarComUrl_some (rand : Nat → Nat → Nat) (url : String) (store : List Item) :
    criarComUrl rand (some url) store =
      if url == "" || !url_valida url then ⟨resp400UrlInvalida, store, 0, 0⟩
      else criarDoLoop
        (createLoop url ((List.range 5).map (fun n => gerar_codigo (rand n))) store) := rfl

theorem criar_preserves (rand : Nat → Nat → Nat) (body : BodyParse)
    (store : List Item) (c : String) (it : Item)
    (h : tabela_get_item store c = some it) :
    tabela_get_item (criar_encurtamento rand body store).store c = some it := by
  have hcomurl : ∀ url?, tabela_get_item (criarComUrl rand url? store).store c = some it := by
    intro url?
    cases url? with
    | none => exact h
    | some url =>
      rw [criarComUrl_some]
      split
      · exact h
      · rw [criarDoLoop_store]
        rcases createLoop_store_cases url
            ((List.range 5).map (fun n => gerar_codigo (rand n))) store with hs | ⟨c', -, hs⟩
        · rw [hs]; exact h
        · rw [hs]; exact tabela_get_item_append _ h
  cases body with
  | malformed msg => exact h
  | nonDict msg => exact h
  | absent => exact hcomurl none
  | parsed url? => exact hcomurl url?

/-- Every item in the store carries a URL that passes `url_valida` (or no URL
attribute at all). -/
def storeValid (store : List Item) : Bool :=
  store.all (fun it =>
    match it.url_original with
    | some u => url_valida u
    | none => true)

theorem storeValid_append {store : List Item} {c url : String}
    (h : storeValid store = true) (hu : url_valida url = true) :
    storeValid (store ++ [⟨c, some url⟩]) = true := by
  unfold storeValid at *
  rw [List.all_append, h]
  simpa using hu

theorem criar_preserves_storeValid (rand : Nat → Nat → Nat) (body : BodyParse)
    (store : List Item) (h : storeValid store = true) :
    storeValid (criar_encurtamento rand body store).store = true := by
  have hcomurl : ∀ url?, storeValid (criarComUrl rand url? store).store = true := by
    intro url?
    cases url? with
    | none => exact h
    | some url =>
      rw [criarComUrl_some]
      split
      · exact h
      · rename_i hcond
        have hvalid : url_valida url = true := by
          cases hval : url_valida url with
          | false => exact absurd (by rw [hval]; simp) hcond
          | true => rfl
        rw [criarDoLoop_store]
        rcases createLoop_store_cases url
            ((List.range 5).map (fun n => gerar_codigo (rand n))) store with hs | ⟨c', -, hs⟩
        · rw [hs]; exact h
        · rw [hs]; exact storeValid_append h hvalid
  cases body with
  | malformed msg => exact h
  | nonDict msg => exact h
  | absent => exact hcomurl none
  | parsed url? => exact hcomurl url?

theorem redirecionar_no_write (store : List Item) (codigo? : Option String) :
    (redirecionar store codigo?).store = store ∧ (redirecionar store codigo?).puts = 0 := by
  unfold redirecionar
  split
  · exact ⟨rfl, rfl⟩
  · split
    · exact ⟨rfl, rfl⟩
    · split
      · exact ⟨rfl, rfl⟩
      · split
        · exact ⟨rfl, rfl⟩
        · split <;> exact ⟨rfl, rfl⟩

/-! ### Claim theorems -/

/-- C2 (counterexample): a request body that is present but not parseable as
JSON — e.g. the literal body `not json`, on which `json.loads` raises
`JSONDecodeError` with the text below — makes `criar_encurtamento` return
status 500 through the outer `except Exception` handler, not the 400 the
claim states. -/
theorem C2_malformed_counterexample :
    (criar_encurtamento (fun _ _ => 0)
        (BodyParse.malformed "Expecting value: line 1 column 1 (char 0)") []).resp.statusCode
      = 500
    ∧ ¬ (criar_encurtamento (fun _ _ => 0)
        (BodyParse.malformed "Expecting value: line 1 column 1 (char 0)") []).resp.statusCode
      = 400 := by
  decide

/-- C2 (amended): only a missing or falsy body is replaced by `"{}"` and hence
treated as an absent `url` (400).  A body that is present but unparseable makes
`json.loads` raise; the exception is caught by the operation's outer handler
and returned as status 500 carrying `str(e)`, with no store call made. -/
theorem C2_malformed_body_500 (rand : Nat → Nat → Nat) (msg : String)
    (store : List Item) :
    criar_encurtamento rand (BodyParse.malformed msg) store =
      ⟨⟨500, [], Body.erroMsg msg⟩, store, 0, 0⟩ := rfl

/-- C7: if the store has no record keyed by `c`, or the record has no
`url_original` attribute, `redirecionar` answers the 404 not-found response;
in particular any (non-empty, per the data model and the resolve contract's
step 1) code on the empty store yields 404. -/
theorem C7_not_found (store : List Item) (c : String) (hc : c ≠ "") :
    ((tabela_get_item store c = none ∨
        ∃ it, tabela_get_item store c = some it ∧ it.url_original = none) →
      (redirecionar store (some c)).resp = resp404)
    ∧ (redirecionar [] (some c)).resp = resp404 := by
  have hbeq : (c == "") = false := beq_eq_false_iff_ne.mpr hc
  constructor
  · intro h
    have hbind : (tabela_get_item store c).bind Item.url_original = none := by
      rcases h with h | ⟨it, hit, hno⟩
      · rw [h]; rfl
      · rw [hit]; exact hno
    simp [redirecionar, hbeq, hbind]
  · simp [redirecionar, hbeq, tabela_get_item]

/-- C7 witness. -/
theorem C7_not_found_witness :
    ("zzzzzz" : String) ≠ "" ∧ (redirecionar [] (some "zzzzzz")).resp = resp404 :=
  ⟨by decide, (C7_not_found [] "zzzzzz" (by decide)).1 (Or.inl rfl)⟩

/-- C10: a stored record whose `url_original` attribute is present but equal to
the empty string is answered with 404 (not the 500 consistency response): the
Python truthiness test `if not url_original` conflates the empty string with a
missing attribute. -/
theorem C10_empty_url_is_404 (store : List Item) (c : String) (it : Item)
    (hc : c ≠ "") (hit : tabela_get_item store c = some it)
    (hvazio : it.url_original = some "") :
    (redirecionar store (some c)).resp = resp404
    ∧ (redirecionar store (some c)).resp ≠ resp500UrlInvalidaDB := by
  have hbeq : (c == "") = false := beq_eq_false_iff_ne.mpr hc
  have hbind : (tabela_get_item store c).bind Item.url_original = some "" := by
    rw [hit]; exact hvazio
  have h404 : (redirecionar store (some c)).resp = resp404 := by
    simp [redirecionar, hbeq, hbind]
  exact ⟨h404, by rw [h404]; decide⟩

/-- C10 witness. -/
theorem C10_empty_url_is_404_witness :
    (redirecionar [⟨"abc123", some ""⟩] (some "abc123")).resp = resp404
    ∧ (redirecionar [⟨"abc123", some ""⟩] (some "abc123")).resp ≠ resp500UrlInvalidaDB :=
  C10_empty_url_is_404 [⟨"abc123", some ""⟩] "abc123" ⟨"abc123", some ""⟩
    (by decide) (by decide) (by decide)

/-- C6: the dispatcher hands the event to `criar_encurtamento` exactly when the
method is POST and the path ends in `/encurtar`; failing that, it hands it to
`redirecionar` exactly when the method is GET and a non-empty `codigo` path
parameter is present; in every remaining case it answers the fixed 400 routing
response with the store untouched and no store calls issued. -/
theorem C6_routing (rand : Nat → Nat → Nat) (ev : Evento) (store : List Item) :
    ((ev.httpMethod == some "POST" && strEndsWith ev.path "/encurtar") = true →
      handler rand ev store = criar_encurtamento rand ev.body store)
    ∧ ((ev.httpMethod == some "POST" && strEndsWith ev.path "/encurtar") = false →
        (ev.httpMethod == some "GET" && paramTruthy ev.pathParameters) = true →
        handler rand ev store = redirecionar store ev.pathParameters.join)
    ∧ ((ev.httpMethod == some "POST" && strEndsWith ev.path "/encurtar") = false →
        (ev.httpMethod == some "GET" && paramTruthy ev.pathParameters) = false →
        handler rand ev store = ⟨resp400Rota, store, 0, 0⟩) := by
  refine ⟨fun h1 => ?_, fun h1 h2 => ?_, fun h1 h2 => ?_⟩
  · simp [handler, h1]
  · simp [handler, h1, h2]
  · simp [handler, h1, h2]

/-- C6 witness: one event per routing branch. -/
theorem C6_routing_witness :
    handler (fun _ _ => 0) ⟨some "POST", "/encurtar", none, BodyParse.absent⟩ []
      = criar_encurtamento (fun _ _ => 0) BodyParse.absent []
    ∧ handler (fun _ _ => 0) ⟨some "GET", "/abc123", some (some "abc123"), BodyParse.absent⟩ []
      = redirecionar [] (some "abc123")
    ∧ handler (fun _ _ => 0) ⟨some "DELETE", "/x", none, BodyParse.absent⟩ []
      = ⟨resp400Rota, [], 0, 0⟩ :=
  ⟨(C6_routing (fun _ _ => 0) ⟨some "POST", "/encurtar", none, BodyParse.absent⟩ []).1
      (by decide),
   (C6_routing (fun _ _ => 0) ⟨some "GET", "/abc123", some (some "abc123"), BodyParse.absent⟩ []).2.1
      (by decide) (by decide),
   (C6_routing (fun _ _ => 0) ⟨some "DELETE", "/x", none, BodyParse.absent⟩ []).2.2
      (by decide) (by decide)⟩

/-- C9: (i) a stored record whose non-empty `url_original` fails `url_valida`
is re-validated by `redirecionar` and answered with the 500 consistency
response, not a redirect; (ii) `criar_encurtamento` preserves the invariant
that every stored URL passes `url_valida`, and (iii) on any store satisfying
that invariant `redirecionar` never returns a 500 — so the branch is
unreachable for records written by Create. -/
theorem C9_defensive_check (store : List Item) (c u : String)
    (rand : Nat → Nat → Nat) (body : BodyParse) (codigo? : Option String) :
    (c ≠ "" → (tabela_get_item store c).bind Item.url_original = some u →
      u ≠ "" → url_valida u = false →
      (redirecionar store (some c)).resp = resp500UrlInvalidaDB)
    ∧ (storeValid store = true →
        storeValid (criar_encurtamento rand body store).store = true)
    ∧ (storeValid store = true →
        (redirecionar store codigo?).resp.statusCode ≠ 500) := by
  refine ⟨fun hc hbind hune hval => ?_, criar_preserves_storeValid rand body store, ?_⟩
  · have hbeq : (c == "") = false := beq_eq_false_iff_ne.mpr hc
    have hbeq' : (u == "") = false := beq_eq_false_iff_ne.mpr hune
    have hnv : (!url_valida u) = true := by rw [hval]; rfl
    simp [redirecionar, hbeq, hbind, hbeq', hnv]
  · intro hsv
    rcases codigo? with _ | cg
    · simp [redirecionar, resp400CodigoNaoInformado]
    · cases hcg : cg == "" with
      | true => simp [redirecionar, hcg, resp400CodigoNaoInformado]
      | false =>
        cases hbind : (tabela_get_item store cg).bind Item.url_original with
        | none => simp [redirecionar, hcg, hbind, resp404]
        | some u =>
          rcases Option.bind_eq_some.mp hbind with ⟨it, hit, hu⟩
          have hmem : it ∈ store := List.mem_of_find?_eq_some hit
          have hval : url_valida u = true := by
            have hp := List.all_eq_true.mp hsv it hmem
            rw [hu] at hp
            exact hp
          cases hu0 : u == "" with
          | true => simp [redirecionar, hcg, hbind, hu0, resp404]
          | false =>
            have hnv : (!url_valida u) = false := by rw [hval]; rfl
            simp [redirecionar, hcg, hbind, hu0, hnv]

/-- C9 witness: a corrupt record triggers the 500; a create-written store keeps
the invariant; a valid store never resolves to a 500. -/
theorem C9_defensive_check_witness :
    (redirecionar [⟨"abc123", some "not-a-url"⟩] (some "abc123")).resp
      = resp500UrlInvalidaDB
    ∧ storeValid (criar_encurtamento (fun _ _ => 0)
        (BodyParse.parsed (some "https://example.com")) []).store = true
    ∧ (redirecionar [⟨"abc123", some "https://example.com"⟩] (some "abc123")).resp.statusCode
      ≠ 500 :=
  ⟨(C9_defensive_check [⟨"abc123", some "not-a-url"⟩] "abc123" "not-a-url"
      (fun _ _ => 0) (BodyParse.parsed (some "https://example.com")) none).1
      (by decide) (by decide) (by decide) (by decide),
   (C9_defensive_check [] "x" "x" (fun _ _ => 0)
      (BodyParse.parsed (some "https://example.com")) none).2.1 (by decide),
   (C9_defensive_check [⟨"abc123", some "https://example.com"⟩] "x" "x"
      (fun _ _ => 0) BodyParse.absent (some "abc123")).2.2 (by decide)⟩

/-- C3 (code bug): in the claim's scenario — a valid URL with a random oracle
whose every attempt generates the already-stored code `aaaaaa`, so all 5
generated codes would collide — the program does not make 5 insert attempts
and never returns the exhaustion message: the first
`ConditionalCheckFailedException` becomes an `AttributeError` on the
nonexistent `boto3.exceptions.ClientError` (app.py:58), and the outer handler
returns 500 with `str(e)` after exactly one insert attempt, store unchanged. -/
theorem C3_no_exhaustion_path :
    criar_encurtamento (fun _ _ => 0) (BodyParse.parsed (some "https://example.com"))
        [⟨"aaaaaa", some "https://example.com"⟩] =
      ⟨⟨500, [], Body.erroMsg msgClientErrorInexistente⟩,
        [⟨"aaaaaa", some "https://example.com"⟩], 0, 1⟩
    ∧ (criar_encurtamento (fun _ _ => 0) (BodyParse.parsed (some "https://example.com"))
        [⟨"aaaaaa", some "https://example.com"⟩]).puts ≠ 5
    ∧ (criar_encurtamento (fun _ _ => 0) (BodyParse.parsed (some "https://example.com"))
        [⟨"aaaaaa", some "https://example.com"⟩]).resp.body
      ≠ Body.erroMsg "Falha ao gerar código único." := by
  decide

/-- C5: `url_valida s` holds exactly when parsing yields scheme `http` or
`https` together with a non-empty netloc (any parse failure is invalid), and
consequently create answers 400 on `not-a-url`, `ftp://host/x` and
`https://`, and 201 on `https://example.com`. -/
theorem C5_url_validity (s : String) (rand : Nat → Nat → Nat) (store : List Item) :
    (url_valida s = true ↔
      ∃ p, urlparse s = some p ∧ (p.scheme = "http" ∨ p.scheme = "https")
        ∧ p.netloc ≠ "")
    ∧ (criar_encurtamento rand (BodyParse.parsed (some "not-a-url")) store).resp.statusCode = 400
    ∧ (criar_encurtamento rand (BodyParse.parsed (some "ftp://host/x")) store).resp.statusCode = 400
    ∧ (criar_encurtamento rand (BodyParse.parsed (some "https://")) store).resp.statusCode = 400
    ∧ (criar_encurtamento rand (BodyParse.parsed (some "https://example.com")) []).resp.statusCode = 201 := by
  refine ⟨?_, ?_, ?_, ?_, ?_⟩
  · unfold url_valida
    cases hp : urlparse s with
    | none => simp
    | some p => simp [Bool.and_eq_true, Bool.or_eq_true, beq_iff_eq, bne_iff_ne]
  · have hcond : (("not-a-url" : String) == "" || !url_valida "not-a-url") = true := by
      decide
    show (criarComUrl rand (some "not-a-url") store).resp.statusCode = 400
    rw [criarComUrl_some, hcond]
    rfl
  · have hcond : (("ftp://host/x" : String) == "" || !url_valida "ftp://host/x") = true := by
      decide
    show (criarComUrl rand (some "ftp://host/x") store).resp.statusCode = 400
    rw [criarComUrl_some, hcond]
    rfl
  · have hcond : (("https://" : String) == "" || !url_valida "https://") = true := by
      decide
    show (criarComUrl rand (some "https://") store).resp.statusCode = 400
    rw [criarComUrl_some, hcond]
    rfl
  · have hcond : (("https://example.com" : String) == ""
        || !url_valida "https://example.com") = false := by decide
    show (criarComUrl rand (some "https://example.com") []).resp.statusCode = 201
    rw [criarComUrl_some, hcond]
    have hfresh : tabela_get_item []
        (gerar_codigo (rand 0)) = none := rfl
    have hlist : (List.range 5).map (fun n => gerar_codigo (rand n)) =
        gerar_codigo (rand 0) ::
          (List.range' 1 4).map (fun n => gerar_codigo (rand n)) := by
      rfl
    have hloop := createLoop_head_fresh "https://example.com" (gerar_codigo (rand 0))
      ((List.range' 1 4).map (fun n => gerar_codigo (rand n))) [] hfresh
    rw [if_neg (by simp)]
    rw [hlist, hloop]
    rfl

/-- C4 (code bug): the claim's `N = 1` scenario — the first generated code
`aaaaaa` collides and the second, `bbbbbb`, is fresh (third conjunct) — does
not succeed on the second attempt: the first collision aborts the request
through the broken except clause, so create returns 500 with the
`AttributeError` text after exactly one insert attempt and writes nothing;
the claimed 201 on attempt `N + 1` never happens. -/
theorem C4_no_retry :
    criar_encurtamento (fun n _ => n) (BodyParse.parsed (some "https://example.com"))
        [⟨"aaaaaa", some "https://a.com"⟩] =
      ⟨⟨500, [], Body.erroMsg msgClientErrorInexistente⟩,
        [⟨"aaaaaa", some "https://a.com"⟩], 0, 1⟩
    ∧ (criar_encurtamento (fun n _ => n) (BodyParse.parsed (some "https://example.com"))
        [⟨"aaaaaa", some "https://a.com"⟩]).resp.statusCode ≠ 201
    ∧ tabela_get_item [⟨"aaaaaa", some "https://a.com"⟩]
        (gerar_codigo ((fun n _ => n) 1)) = none := by
  decide

/-- C1: round-trip — when create on body `{url: u}` answers 201 carrying code
`c`, resolving `c` against the store create produced answers a 301 whose
`Location` header is `u` and whose body is the empty string. -/
theorem C1_round_trip (rand : Nat → Nat → Nat) (store : List Item) (u c : String)
    (hu : url_valida u = true)
    (h201 : (criar_encurtamento rand (BodyParse.parsed (some u)) store).resp.statusCode = 201)
    (hc : respCodigo (criar_encurtamento rand (BodyParse.parsed (some u)) store).resp = some c) :
    (redirecionar (criar_encurtamento rand (BodyParse.parsed (some u)) store).store
        (some c)).resp
      = ⟨301, [("Location", u)], Body.vazio⟩ := by
  have hne : (u == "") = false := beq_eq_false_iff_ne.mpr (url_valida_ne_empty hu)
  have hcond : (u == "" || !url_valida u) = false := by rw [hne, hu]; rfl
  have hcr : criar_encurtamento rand (BodyParse.parsed (some u)) store =
      criarDoLoop (createLoop u
        ((List.range 5).map (fun n => gerar_codigo (rand n))) store) := by
    show criarComUrl rand (some u) store = _
    rw [criarComUrl_some, hcond]
    rw [if_neg (by simp)]
  rw [hcr] at h201 hc ⊢
  cases hf : (createLoop u ((List.range 5).map (fun n => gerar_codigo (rand n))) store).outcome with
  | esgotado => simp [criarDoLoop, hf] at h201
  | excecao msg => simp [criarDoLoop, hf] at h201
  | ok c' =>
    simp only [criarDoLoop, hf, respCodigo, Option.some.injEq] at hc
    subst hc
    obtain ⟨hmem, hg, hs⟩ := createLoop_ok u
      ((List.range 5).map (fun n => gerar_codigo (rand n))) store
      (show _ = ⟨_, LoopOutcome.ok c', _⟩ by rw [← hf])
    rcases List.mem_map.mp hmem with ⟨n, -, hn⟩
    have hcne : c' ≠ "" := by rw [← hn]; exact gerar_codigo_ne_empty (rand n)
    have hstore : (criarDoLoop (createLoop u
          ((List.range 5).map (fun n => gerar_codigo (rand n))) store)).store =
        store ++ [⟨c', some u⟩] := by
      rw [criarDoLoop_store, hs]
    rw [hstore]
    have hlook : tabela_get_item (store ++ [⟨c', some u⟩]) c' = some ⟨c', some u⟩ :=
      tabela_get_item_append_self _ hg
    have hbeqc : (c' == "") = false := beq_eq_false_iff_ne.mpr hcne
    have hbind : (tabela_get_item (store ++ [⟨c', some u⟩]) c').bind Item.url_original
        = some u := by rw [hlook]; rfl
    have hnv : (!url_valida u) = false := by rw [hu]; rfl
    simp [redirecionar, hbeqc, hbind, hne, hnv]

/-- C1 witness. -/
theorem C1_round_trip_witness :
    url_valida "https://example.com" = true
    ∧ (criar_encurtamento (fun _ _ => 0)
        (BodyParse.parsed (some "https://example.com")) []).resp.statusCode = 201
    ∧ respCodigo (criar_encurtamento (fun _ _ => 0)
        (BodyParse.parsed (some "https://example.com")) []).resp = some "aaaaaa"
    ∧ (redirecionar (criar_encurtamento (fun _ _ => 0)
          (BodyParse.parsed (some "https://example.com")) []).store
        (some "aaaaaa")).resp
      = ⟨301, [("Location", "https://example.com")], Body.vazio⟩ :=
  ⟨by decide, by decide, by decide,
   C1_round_trip (fun _ _ => 0) [] "https://example.com" "aaaaaa"
     (by decide) (by decide) (by decide)⟩

/-- C8: no operation mutates or deletes an existing record — `redirecionar`
writes nothing (store unchanged, zero `put_item` calls), and whatever
operation the dispatcher runs, every record present beforehand is still found
unchanged under its key afterwards (create only ever appends under a fresh
key). -/
theorem C8_immutability (rand : Nat → Nat → Nat) (ev : Evento) (store : List Item)
    (codigo? : Option String) (c : String) (it : Item) :
    ((redirecionar store codigo?).store = store ∧ (redirecionar store codigo?).puts = 0)
    ∧ (tabela_get_item store c = some it →
        tabela_get_item (handler rand ev store).store c = some it) := by
  refine ⟨redirecionar_no_write store codigo?, fun h => ?_⟩
  unfold handler
  split
  · exact criar_preserves rand ev.body store c it h
  · split
    · rw [(redirecionar_no_write store ev.pathParameters.join).1]
      exact h
    · exact h

/-- C8 witness: a create over a non-empty store leaves the pre-existing record
intact. -/
theorem C8_immutability_witness :
    ((redirecionar [⟨"abc123", some "https://example.com"⟩] (some "abc123")).store
        = [⟨"abc123", some "https://example.com"⟩]
      ∧ (redirecionar [⟨"abc123", some "https://example.com"⟩] (some "abc123")).puts = 0)
    ∧ tabela_get_item
        (handler (fun _ _ => 0)
          ⟨some "POST", "/encurtar", none, BodyParse.parsed (some "https://example.com")⟩
          [⟨"abc123", some "https://example.com"⟩]).store
        "abc123" = some ⟨"abc123", some "https://example.com"⟩ :=
  ⟨(C8_immutability (fun _ _ => 0)
      ⟨some "POST", "/encurtar", none, BodyParse.parsed (some "https://example.com")⟩
      [⟨"abc123", some "https://example.com"⟩] (some "abc123") "abc123"
      ⟨"abc123", some "https://example.com"⟩).1,
   (C8_immutability (fun _ _ => 0)
      ⟨some "POST", "/encurtar", none, BodyParse.parsed (some "https://example.com")⟩
      [⟨"abc123", some "https://example.com"⟩] (some "abc123") "abc123"
      ⟨"abc123", some "https://example.com"⟩).2 (by decide)⟩

end UrlShortener
